import Mathlib

/-!
Shallow embedding of the Python sources under Software/ of The_real_Fufi
(environment.py, wrappers.py, gsde_class.py, agent_class.py) together with
theorems settling the spec claims.

Conventions.
* Float tensors are idealized over the reals: a 1-D tensor is a `List ℝ`
  (`Vec`), a 2-D tensor a `List (List ℝ)` (`Mat`).
* A Python exception is a value of `PyErr`; a call that can raise returns
  `Except PyErr _`.  Methods that mutate instance attributes take the
  attribute record and return the (possibly updated) record next to the
  `Except` result, so the attribute state at the point where an exception
  propagates stays visible.
* Python resolves a bare name inside a function body against the local
  scope, then the module globals, then builtins.  The module-global name
  sets of gsde_class.py and agent_class.py are embedded verbatim from their
  top-level statements with the names introduced, and a failed lookup is a
  NameError, exactly as in CPython (type annotations are evaluated lazily
  and never consulted at call time).
-/

namespace Fufi

abbrev Vec : Type := List ℝ
abbrev Mat : Type := List Vec

/-- A raised Python exception, identified by its class and the offending
identifier or message. -/
inductive PyErr where
  | nameError (name : String)
  | typeError (msg : String)
  | assertionError (msg : String)
  | attributeError (name : String)

/-- Names bound at module level of gsde_class.py: the typing names of
line 10, numpy as np, torch as th, spaces, nn, Distribution (the only name
taken from stable_baselines3.common.distributions, line 17), and the two
classes the file defines.  In particular Normal, sum_independent_dims,
log_std and get_distribution are NOT module-level names. -/
def gsdeModuleGlobals : List String :=
  ["Any", "Dict", "List", "Optional", "Tuple", "TypeVar", "Union",
   "np", "th", "spaces", "nn", "Distribution", "TanhBijector", "gSDE"]

/-- Names bound at module level of agent_class.py (lines 14-23 and the
top-level defs): note Normal is NOT among them (only Categorical is
imported from torch.distributions). -/
def agentModuleGlobals : List String :=
  ["os", "np", "torch", "nn", "Categorical", "summary", "gym", "datetime",
   "gSDE", "get_checkpoint_name", "layer_init", "Agent"]

/-- Lookup of a bare name used inside a function body of gsde_class.py that
is not a local: CPython falls back to the module globals (none of the names
involved are builtins) and raises NameError when the name is absent. -/
def gsdeGlobal (name : String) : Except PyErr Unit :=
  if name ∈ gsdeModuleGlobals then .ok () else .error (.nameError name)

/-- Same lookup against the module globals of agent_class.py. -/
def agentGlobal (name : String) : Except PyErr Unit :=
  if name ∈ agentModuleGlobals then .ok () else .error (.nameError name)

noncomputable section

/-! ## TanhBijector (gsde_class.py lines 39-79) -/

/-- TanhBijector.forward (line 53): tanh(x). -/
def TanhBijector.forward (x : ℝ) : ℝ := Real.tanh x

/-- TanhBijector.atanh (line 63): 0.5 * (x.log1p() - (-x).log1p()), with
log1p t = log (1 + t). -/
def TanhBijector.atanh (x : ℝ) : ℝ :=
  0.5 * (Real.log (1 + x) - Real.log (1 + -x))

/-- torch Tensor.clamp(min = lo, max = hi): min(max(x, lo), hi). -/
def clampR (lo hi x : ℝ) : ℝ := min (max x lo) hi

/-- TanhBijector.inverse (lines 66-75): clamp y into
[-1 + eps, 1 - eps] and apply the stable atanh.  eps is
th.finfo(y.dtype).eps, the machine epsilon of the numeric type of y, kept
here as an explicit parameter of the idealization. -/
def TanhBijector.inverse (eps y : ℝ) : ℝ :=
  TanhBijector.atanh (clampR (-1 + eps) (1 - eps) y)

/-- TanhBijector.log_prob_correction (line 79):
log(1 - tanh(x)^2 + epsilon). -/
def TanhBijector.log_prob_correction (epsilon x : ℝ) : ℝ :=
  Real.log (1 - Real.tanh x ^ 2 + epsilon)

/-! ## gSDE configuration and attribute state -/

/-- Constructor-determined configuration of a gSDE instance
(gsde_class.py lines 91-112).  latent_sde_dim is the attribute set to None
on line 102 and reassigned nowhere in the repository; it is kept as an
Option since Python would let an external caller assign it.  The bijector
attribute is TanhBijector(epsilon) when squash_output, else None, so its
presence is equivalent to the squash_output flag. -/
structure GSDEConfig where
  action_dim : ℕ
  latent_sde_dim : Option ℕ
  use_expln : Bool
  full_std : Bool
  squash_output : Bool
  learn_features : Bool
  epsilon : ℝ

/-- gSDE.__init__ (lines 91-112). -/
def gSDE.init (action_dim : ℕ) (full_std use_expln squash_output learn_features : Bool)
    (epsilon : ℝ) : GSDEConfig :=
  { action_dim := action_dim, latent_sde_dim := none, use_expln := use_expln,
    full_std := full_std, squash_output := squash_output,
    learn_features := learn_features, epsilon := epsilon }

/-- A one- or two-dimensional float tensor. -/
inductive Tensor where
  | vec (v : Vec)
  | mat (m : Mat)

/-- Elementwise application, the meaning of the torch elementwise ops used
by get_std. -/
def Tensor.map (f : ℝ → ℝ) : Tensor → Tensor
  | .vec v => .vec (v.map f)
  | .mat m => .mat (m.map (fun r => r.map f))

/-- All scalar entries of a tensor. -/
def Tensor.entries : Tensor → List ℝ
  | .vec v => v
  | .mat m => m.flatten

/-- Holds when the tensor is two-dimensional with all rows equal. -/
def Tensor.rowsIdentical : Tensor → Prop
  | .vec _ => False
  | .mat m => ∀ r1 ∈ m, ∀ r2 ∈ m, r1 = r2

/-- Mutable attribute state of a gSDE instance beyond the configuration.
Attributes that __init__ sets to None, or that are only ever mentioned as
class-level annotations, start at none; reading an attribute that was
never assigned raises AttributeError in Python. -/
structure GSDEState where
  cfg : GSDEConfig
  mean_actions : Option Mat
  log_std : Option Tensor
  latent_sde : Option Mat
  weights_dist : Option Tensor
  exploration_mat : Option Mat
  exploration_matrices : Option (List Mat)
  distribution : Option (Mat × Mat)

/-! ## gSDE.get_std (lines 115-139) -/

/-- Elementwise std transform of gSDE.get_std (lines 123-133).  With
use_expln the two branches are combined through multiplicative indicator
masks exactly as the source writes them:
below_threshold = exp(log_std) * (log_std <= 0),
safe_log_std = log_std * (log_std > 0) + epsilon,
above_threshold = (log1p(safe_log_std) + 1.0) * (log_std > 0),
std = below_threshold + above_threshold;
without use_expln, std = exp(log_std). -/
def get_std_entry (use_expln : Bool) (epsilon x : ℝ) : ℝ :=
  if use_expln then
    Real.exp x * (if x ≤ 0 then 1 else 0)
      + (Real.log (1 + (x * (if 0 < x then 1 else 0) + epsilon)) + 1)
          * (if 0 < x then 1 else 0)
  else
    Real.exp x

/-- gSDE.get_std (lines 115-139).  The elementwise transform is applied to
log_std; with full_std the result is returned as is; otherwise the code
asserts latent_sde_dim is not None (AssertionError when it is still the
None that __init__ stored) and broadcasts
ones(latent_sde_dim, action_dim) * std: a 1-D std (the documented reduced
shape (action_dim,)) or a single-row 2-D std is replicated into
latent_sde_dim identical rows, a 2-D std whose row count already equals
latent_sde_dim multiplies through unchanged, and any other row count
cannot broadcast and raises. -/
def gSDE.get_std (s : GSDEConfig) (log_std : Tensor) : Except PyErr Tensor :=
  let std := log_std.map (get_std_entry s.use_expln s.epsilon)
  if s.full_std then
    .ok std
  else
    match s.latent_sde_dim with
    | none => .error (.assertionError "self.latent_sde_dim is not None")
    | some L =>
      match std with
      | .vec v => .ok (.mat (List.replicate L v))
      | .mat [v] => .ok (.mat (List.replicate L v))
      | .mat m =>
        if m.length = L then .ok (.mat m)
        else .error (.typeError "tensor shapes cannot be broadcast")

/-! ## gSDE noise sampling (lines 143-170) -/

/-- gSDE.sample_weights (lines 143-157).  Line 151 computes get_std (which
may itself raise); line 152 then evaluates the bare name Normal, which is
neither a local of sample_weights nor a module-level binding of
gsde_class.py, so a NameError propagates before weights_dist or
exploration_mat is assigned.  The draws that lines 154 and 156 would have
produced are supplied as the oracle arguments draw1 and drawB so the dead
tail can still be written out faithfully.  Note that line 156 binds a
LOCAL exploration_matrices and line 157 returns it: sample_weights never
assigns the attribute self.exploration_matrices. -/
def gSDE.sample_weights (s : GSDEState) (log_std : Tensor) (_batch_size : ℕ)
    (draw1 : Mat) (drawB : List Mat) : GSDEState × Except PyErr (List Mat) :=
  match gSDE.get_std s.cfg log_std with
  | .error e => (s, .error e)
  | .ok std =>
    match gsdeGlobal "Normal" with
    | .error e => (s, .error e)
    | .ok _ =>
      ({ s with weights_dist := some std, exploration_mat := some draw1 }, .ok drawB)

/-- Dot product of two equally long vectors (the scalar kernel of th.mm
and th.bmm). -/
def dotV (u v : Vec) : ℝ := ((u.zip v).map (fun p => p.1 * p.2)).sum

/-- Row vector times matrix. -/
def vecMatMul (v : Vec) (m : Mat) : Vec := m.transpose.map (fun col => dotV v col)

/-- th.mm: matrix product. -/
def matMul (a b : Mat) : Mat := a.map (fun row => vecMatMul row b)

/-- Unreachable tail of get_noise (lines 161-170), recorded for reference:
after the detach of line 161 (no numeric effect), the single shared
exploration_mat multiplies the whole latent batch whenever the batch has
length one or differs in length from exploration_matrices; otherwise each
latent row is bmm-multiplied with its own matrix. -/
def get_noise_line_163_170 (latent_sde : Mat) (exploration_mat : Mat)
    (exploration_matrices : List Mat) : Mat :=
  if latent_sde.length = 1 ∨ latent_sde.length ≠ exploration_matrices.length then
    matMul latent_sde exploration_mat
  else
    (latent_sde.zip exploration_matrices).map (fun p => vecMatMul p.1 p.2)

/-- gSDE.get_noise (lines 159-170).  Its first statement is
self.exploration_matrices = self.sample_weights(log_std), and evaluating
the argument log_std (not a parameter or local of get_noise, not bound at
module level) raises NameError before sample_weights is entered: no
attribute is assigned and the branch of lines 163-170 is never reached. -/
def gSDE.get_noise (s : GSDEState) (_latent_sde : Mat) : GSDEState × Except PyErr Mat :=
  match gsdeGlobal "log_std" with
  | .error e => (s, .error e)
  | .ok _ => (s, .error (.nameError "log_std"))

/-! ## gSDE distribution build, sampling and probability queries
(lines 173-231) -/

/-- gSDE.get_distribution (lines 173-188): line 185 assigns _latent_sde
(this mutation happens before any failure and persists), line 186 computes
the state-dependent variance through get_std (which may raise), and
line 187 then evaluates the unbound name Normal: NameError.  The variance
value of line 186 is never observable. -/
def gSDE.get_distribution (s : GSDEState) (_mean_actions : Mat) (log_std : Tensor)
    (latent_sde : Mat) : GSDEState × Except PyErr (Mat × Mat) :=
  let s1 := { s with latent_sde := some latent_sde }
  match gSDE.get_std s1.cfg log_std with
  | .error e => (s1, .error e)
  | .ok _std =>
    match gsdeGlobal "Normal" with
    | .error e => (s1, .error e)
    | .ok _ => (s1, .error (.nameError "unreachable: Normal is unbound"))

/-- gSDE.sample (lines 191-197): reads self._latent_sde (AttributeError if
it was never assigned), then calls get_noise, whose NameError propagates.
Line 193 would afterwards evaluate the bare names get_distribution and
latent_sde, both unbound as well. -/
def gSDE.sample (s : GSDEState) : GSDEState × Except PyErr Mat :=
  match s.latent_sde with
  | none => (s, .error (.attributeError "_latent_sde"))
  | some lat =>
    match gSDE.get_noise s lat with
    | (s1, .error e) => (s1, .error e)
    | (s1, .ok _noise) =>
      match gsdeGlobal "get_distribution" with
      | .error e => (s1, .error e)
      | .ok _ => (s1, .error (.nameError "get_distribution"))

/-- gSDE.log_prob (lines 202-215): lines 203-206 invert the actions through
the bijector when one is configured (a pure computation that raises
nothing), line 208 reads self.distribution (AttributeError when no
distribution was ever stored), and line 210 then evaluates the bare name
sum_independent_dims, which gsde_class.py neither defines nor imports:
NameError. -/
def gSDE.log_prob (s : GSDEState) (_actions : Mat) : GSDEState × Except PyErr Vec :=
  match s.distribution with
  | none => (s, .error (.attributeError "distribution"))
  | some _ =>
    match gsdeGlobal "sum_independent_dims" with
    | .error e => (s, .error e)
    | .ok _ => (s, .error (.nameError "sum_independent_dims"))

/-- gSDE.entropy (lines 217-222): with a bijector configured it returns the
None sentinel at once; otherwise line 222 evaluates the callable name
sum_independent_dims before its argument, and that name is unbound in
gsde_class.py: NameError. -/
def gSDE.entropy (s : GSDEState) : GSDEState × Except PyErr (Option Vec) :=
  if s.cfg.squash_output then (s, .ok none)
  else
    match gsdeGlobal "sum_independent_dims" with
    | .error e => (s, .error e)
    | .ok _ => (s, .error (.nameError "sum_independent_dims"))

/-- gSDE.mode (lines 227-231): reads self.distribution.mean (AttributeError
when no distribution was stored) and squashes it through tanh when the
bijector is configured. -/
def gSDE.mode (s : GSDEState) : GSDEState × Except PyErr Mat :=
  match s.distribution with
  | none => (s, .error (.attributeError "distribution"))
  | some md =>
    if s.cfg.squash_output then
      (s, .ok (md.1.map (fun row => row.map TanhBijector.forward)))
    else (s, .ok md.1)

/-! ## gym spaces and HistoryWrapper (wrappers.py) -/

/-- A gym space as far as this code consumes it: Discrete(n) or a
continuous Box with low and high bound vectors. -/
inductive GymSpace where
  | discrete (n : ℕ)
  | box (low : Vec) (high : Vec)

/-- isinstance(space, gym.spaces.Discrete). -/
def GymSpace.isDiscrete : GymSpace → Bool
  | .discrete _ => true
  | .box _ _ => false

/-- Attribute space.low: Box exposes it, Discrete has no such attribute. -/
def GymSpace.low : GymSpace → Except PyErr Vec
  | .box lo _ => .ok lo
  | .discrete _ => .error (.attributeError "low")

/-- Wrapper state of HistoryWrapper: the construction flags, the bounds it
derived, and the rolling history list. -/
structure HW where
  steps : ℕ
  use_continuity_cost : Bool
  beta : ℝ
  obs_low : Vec
  act_low : Vec
  step_low : Vec
  history : List Vec

/-- HistoryWrapper._make_history (wrappers.py lines 48-49): steps rows of
zeros shaped like step_low. -/
def HistoryWrapper.make_history (steps : ℕ) (step_low : Vec) : List Vec :=
  List.replicate steps (List.replicate step_low.length (0 : ℝ))

/-- HistoryWrapper.__init__ (wrappers.py lines 29-49): asserts steps > 1,
reads low and high off the inner observation and action spaces (this is
where a Discrete space fails, having no low attribute), concatenates them
into the per-step bounds, rebuilds the stacked Box observation space, and
fills the history with zeros.  beta is fixed to 1 (line 34). -/
def HistoryWrapper.init (obs_space act_space : GymSpace) (steps : ℕ)
    (use_continuity_cost : Bool) : Except PyErr HW :=
  if steps > 1 then
    match obs_space.low, act_space.low with
    | .ok obs_low, .ok act_low =>
      let step_low := obs_low ++ act_low
      .ok { steps := steps, use_continuity_cost := use_continuity_cost, beta := 1,
            obs_low := obs_low, act_low := act_low, step_low := step_low,
            history := HistoryWrapper.make_history steps step_low }
    | .error e, _ => .error e
    | _, .error e => .error e
  else .error (.assertionError "steps must be > 1")

/-- HistoryWrapper._continuity_cost (wrappers.py lines 51-58).
obs[-1][-1] and obs[-2][-1] are the LAST SCALAR ENTRIES of the two most
recent stacked rows, i.e. the final component of the action slice only,
not the whole action vectors; the cost is the squared difference of those
two scalars (the .sum() of a 0-d array is the scalar itself).  Negative
indexing is total here because the histories built by this wrapper always
have steps > 1 rows; the defaults of getLastD are never consulted there. -/
def HistoryWrapper.continuity_cost (obs : List Vec) : ℝ :=
  let action := (obs.getLastD []).getLastD 0
  let last_action := (obs.dropLast.getLastD []).getLastD 0
  (action - last_action) ^ 2

/-- HistoryWrapper.step (wrappers.py lines 60-73).  The inner environment
response (inner_obs, inner_reward, inner_done) is an input of the
embedding.  Returns the new wrapper state, the flattened stacked
observation, the possibly penalized reward, done, and the value that step
stores under info["continuity_cost"] (none when the flag is off). -/
def HistoryWrapper.step (w : HW) (action inner_obs : Vec) (inner_reward : ℝ)
    (inner_done : Bool) : HW × Vec × ℝ × Bool × Option ℝ :=
  let history2 := w.history.tail ++ [inner_obs ++ action]
  let w2 := { w with history := history2 }
  if w.use_continuity_cost then
    let cc := HistoryWrapper.continuity_cost history2
    (w2, history2.flatten, inner_reward - w.beta * cc, inner_done, some cc)
  else
    (w2, history2.flatten, inner_reward, inner_done, none)

/-- HistoryWrapper.reset (wrappers.py lines 75-89): rebuilds the zero
history, pops the oldest row, appends the inner reset observation
concatenated with an action-shaped zero vector, and returns the flattened
stack (info is the empty dict). -/
def HistoryWrapper.reset (w : HW) (inner_obs : Vec) : HW × Vec :=
  let h1 := (HistoryWrapper.make_history w.steps w.step_low).tail
  let h2 := h1 ++ [inner_obs ++ List.replicate w.act_low.length (0 : ℝ)]
  ({ w with history := h2 }, h2.flatten)

/-- Structural invariant of the wrapper: the construction-time fields are
as built for an inner Box pair with od-long observation and ad-long action
bounds, and the history holds exactly n rows of width od + ad. -/
def HW.inv (w : HW) (n od ad : ℕ) : Prop :=
  w.steps = n ∧ w.step_low.length = od + ad ∧ w.act_low.length = ad ∧
    w.history.length = n ∧ ∀ r ∈ w.history, r.length = od + ad

/-- Modelled from the claim of C4, for comparison only: the squared
Euclidean distance between the action slices (the trailing act_dim
components, ALL of them) of the two most recently recorded rows. -/
def claimed_continuity_cost (act_dim : ℕ) (obs : List Vec) : ℝ :=
  let a := (obs.getLastD []).drop ((obs.getLastD []).length - act_dim)
  let b := (obs.dropLast.getLastD []).drop ((obs.dropLast.getLastD []).length - act_dim)
  (((a.zip b).map (fun p => (p.1 - p.2) ^ 2)).sum)

/-! ## environment.py -/

/-- make_env thunk body (environment.py lines 24-37), abstracted to the
spaces of the gym.make result: RecordEpisodeStatistics passes the spaces
through, then HistoryWrapper(env, 2, True) is constructed (a Discrete
action space already fails here, exposing no low attribute); video capture
and seeding do not affect the spaces. -/
def make_env (obs_space act_space : GymSpace) : Except PyErr HW :=
  HistoryWrapper.init obs_space act_space 2 true

/-- vectorize_env (environment.py lines 44-50): gym.vector.SyncVectorEnv
runs every make_env thunk eagerly, then line 48 asserts
isinstance(envs.single_action_space, gym.spaces.Discrete) with the message
"only discrete action space is supported"; single_action_space is the
per-env action space.  The surviving vector env is abstracted to that
space. -/
def vectorize_env (obs_space act_space : GymSpace) : Except PyErr GymSpace :=
  match make_env obs_space act_space with
  | .error e => .error e
  | .ok _ =>
    if act_space.isDiscrete then .ok act_space
    else .error (.assertionError "only discrete action space is supported")

/-! ## agent_class.py -/

/-- Parameter names of gSDE.__init__ after self (gsde_class.py
lines 91-99); every parameter except action_dim carries a default. -/
def gSDEInitParams : List String :=
  ["action_dim", "full_std", "use_expln", "squash_output", "learn_features", "epsilon"]

/-- Keyword-argument names of the gSDE constructor call in
Agent.get_action_and_value (agent_class.py line 97). -/
def agentGsdeCallKwargs : List String :=
  ["action_dim", "observation_dim", "observation", "mean_actions", "log_std"]

/-- CPython keyword binding for a def without a **kwargs catch-all: the
call raises TypeError (unexpected keyword argument) unless every keyword
names a declared parameter, and afterwards every parameter without a
default must have been bound. -/
def pyKwargsBind (params required kwargs : List String) : Except PyErr Unit :=
  if kwargs.all (fun k => params.contains k) then
    if required.all (fun r => kwargs.contains r) then .ok ()
    else .error (.typeError "missing a required argument")
  else .error (.typeError "got an unexpected keyword argument")

/-- The Agent attributes that get_action_and_value consumes: the gSDE flag
and the (pure) network forward passes. -/
structure AgentModel where
  use_sde : Bool
  actor_mean : Vec → Vec
  actor_logstd : Vec
  critic : Vec → ℝ

/-- Agent.get_action_and_value (agent_class.py lines 87-105): computes
action_mean and the broadcast action_logstd (pure network forwards), then
with use_sde constructs gSDE(action_dim=..., observation_dim=...,
observation=..., mean_actions=..., log_std=...); four of those keywords
are not parameters of gSDE.__init__, which has no **kwargs, so the call
raises TypeError.  Without use_sde, line 101 evaluates the bare name
Normal, which agent_class.py never imports: NameError.  Neither branch
reaches the sampling and the four-tuple return of lines 103-105. -/
def Agent.get_action_and_value (A : AgentModel) (x : Vec) (_action : Option Vec) :
    Except PyErr (Vec × ℝ × Option ℝ × ℝ) :=
  let _action_mean := A.actor_mean x
  let _action_logstd := A.actor_logstd
  if A.use_sde then
    match pyKwargsBind gSDEInitParams ["action_dim"] agentGsdeCallKwargs with
    | .error e => .error e
    | .ok _ => .error (.typeError "not reached: the keyword binding fails")
  else
    match agentGlobal "Normal" with
    | .error e => .error e
    | .ok _ => .error (.nameError "not reached: Normal is unbound")

/-! ## Concrete instances used to witness the theorems on concrete inputs -/

/-- A gSDE instance in the Ready state of the spec: constructed by
__init__ with the defaults, then mean_actions, log_std and the latent
features assigned. -/
def stateC2 : GSDEState :=
  { cfg := gSDE.init 1 true false false false (1 / 1000000),
    mean_actions := some [[0]], log_std := some (.vec [0]),
    latent_sde := some [[1]], weights_dist := none, exploration_mat := none,
    exploration_matrices := none, distribution := none }

/-- An Agent with use_sde enabled and arbitrary concrete networks. -/
def agentC3 : AgentModel :=
  { use_sde := true, actor_mean := fun v => v, actor_logstd := [0],
    critic := fun _ => 0 }

/-- A HistoryWrapper state over a 1-dimensional observation and a
2-DIMENSIONAL action space, whose most recent recorded row [0, 1, 0]
records the action vector (1, 0). -/
def hwC4 : HW :=
  { steps := 2, use_continuity_cost := true, beta := 1,
    obs_low := [0], act_low := [0, 0], step_low := [0, 0, 0],
    history := [[9, 9, 9], [0, 1, 0]] }

/-- A gSDE configuration with use_expln, full_std = False and a
latent_sde_dim that an external caller has set to 2. -/
def cfgC6 : GSDEConfig :=
  { action_dim := 1, latent_sde_dim := some 2, use_expln := true,
    full_std := false, squash_output := false, learn_features := false,
    epsilon := 1 / 1000000 }

/-- The HistoryWrapper state that HistoryWrapper.init builds for Box([0],[1])
observation and action spaces with steps = 2. -/
def hwC10 : HW :=
  { steps := 2, use_continuity_cost := false, beta := 1,
    obs_low := [0], act_low := [0], step_low := [0] ++ [0],
    history := HistoryWrapper.make_history 2 ([0] ++ [0]) }

end

/-! ## Shared helper lemmas -/

/-- The elementwise std transform is strictly positive for every real
input and both use_expln settings, as long as the configured epsilon is
nonnegative. -/
theorem get_std_entry_pos (b : Bool) (ε x : ℝ) (hε : 0 ≤ ε) :
    0 < get_std_entry b ε x := by
  unfold get_std_entry
  cases b with
  | false => simpa using Real.exp_pos x
  | true =>
    by_cases hx : x ≤ 0
    · have hx' : ¬ 0 < x := not_lt.mpr hx
      simp only [if_pos hx, if_neg hx', mul_one, mul_zero, add_zero, if_true]
      exact Real.exp_pos x
    · have hx' : 0 < x := lt_of_not_le hx
      simp only [if_neg hx, if_pos hx', mul_zero, mul_one, zero_add, if_true]
      have hlog : 0 < Real.log (1 + (x + ε)) :=
        Real.log_pos (by linarith)
      linarith

/-- Every entry of a mapped tensor is the image of some real. -/
theorem Tensor.entries_map (f : ℝ → ℝ) (t : Tensor) :
    ∀ y ∈ (Tensor.map f t).entries, ∃ x, y = f x := by
  intro y hy
  cases t with
  | vec v =>
    simp only [Tensor.map, Tensor.entries, List.mem_map] at hy
    obtain ⟨x, _, hx⟩ := hy
    exact ⟨x, hx.symm⟩
  | mat m =>
    simp only [Tensor.map, Tensor.entries, List.mem_flatten, List.mem_map] at hy
    obtain ⟨r, ⟨row, _, hrow⟩, hyr⟩ := hy
    subst hrow
    obtain ⟨x, _, hx⟩ := List.mem_map.mp hyr
    exact ⟨x, hx.symm⟩

/-- The flattening of a list of equally long rows has length
rows * width. -/
theorem flatten_length_of_rows {l : List Vec} {d : ℕ}
    (h : ∀ r ∈ l, r.length = d) : l.flatten.length = l.length * d := by
  induction l with
  | nil => simp
  | cons a t ih =>
    simp only [List.flatten_cons, List.length_append, List.length_cons]
    rw [h a (by simp), ih (fun r hr => h r (by simp [hr]))]
    ring

/-- The last element of a nonempty list does not depend on the getLastD
default. -/
theorem getLastD_default_irrel {α : Type} (b : α) (l : List α) (d1 d2 : α) :
    (b :: l).getLastD d1 = (b :: l).getLastD d2 := by
  rw [List.getLastD_cons, List.getLastD_cons]

/-- The last element of an appended list is the last element of the right
part when that part is nonempty. -/
theorem getLastD_append_right {α : Type} (l1 l2 : List α) (h : l2 ≠ []) (d : α) :
    (l1 ++ l2).getLastD d = l2.getLastD d := by
  rw [List.getLastD_eq_getLast?, List.getLastD_eq_getLast?, List.getLast?_append]
  cases h2 : l2.getLast? with
  | none => exact absurd (List.getLast?_eq_none_iff.mp h2) h
  | some b => rfl

/-- Dropping the head of a list with at least two elements keeps its last
element. -/
theorem getLastD_tail_of_two_le {α : Type} (l : List α) (h : 2 ≤ l.length) (d : α) :
    l.tail.getLastD d = l.getLastD d := by
  cases l with
  | nil => simp at h
  | cons a t =>
    cases t with
    | nil => simp at h
    | cons b t2 =>
      show (b :: t2).getLastD d = (a :: b :: t2).getLastD d
      simp [List.getLastD_cons]

/-- The tanh of the stable atanh of gsde_class.py is the identity strictly
inside (-1, 1). -/
theorem tanh_tanhBijector_atanh (y : ℝ) (h1 : -1 < y) (h2 : y < 1) :
    Real.tanh (TanhBijector.atanh y) = y := by
  have ha : (0 : ℝ) < 1 + y := by linarith
  have hb : (0 : ℝ) < 1 + -y := by linarith
  have h2z : Real.exp (TanhBijector.atanh y) * Real.exp (TanhBijector.atanh y)
      = (1 + y) / (1 + -y) := by
    rw [← Real.exp_add]
    have hzz : TanhBijector.atanh y + TanhBijector.atanh y
        = Real.log (1 + y) - Real.log (1 + -y) := by
      unfold TanhBijector.atanh; ring
    rw [hzz, Real.exp_sub, Real.exp_log ha, Real.exp_log hb]
  set E := Real.exp (TanhBijector.atanh y) with hE
  have hEpos : (0 : ℝ) < E := Real.exp_pos _
  rw [Real.tanh_eq_sinh_div_cosh, Real.sinh_eq, Real.cosh_eq, ← hE, Real.exp_neg, ← hE]
  have hden : E + E⁻¹ > 0 := by positivity
  rw [div_div_div_cancel_right₀]
  rw [div_eq_iff (by positivity)]
  have hEne : E ≠ 0 := ne_of_gt hEpos
  have hkey2 : E * E * (1 + -y) = 1 + y := by
    rw [h2z]; field_simp
  field_simp
  linear_combination hkey2
  norm_num

/-! ## Claim theorems -/

/-- C1: FALSIFIED (code bug).  environment.py line 48 asserts that the
vectorized single_action_space IS gym.spaces.Discrete ("only discrete
action space is supported"), the opposite of the claim: every continuous
Box action space is rejected by that assertion, and a Discrete action
space does not survive either, because HistoryWrapper construction inside
each make_env thunk reads action_space.low, an attribute Discrete does
not have.  vectorize_env therefore never accepts a Box action space. -/
theorem C1_vectorize_env_rejects_box :
    (∀ olow ohigh alow ahigh : Vec,
        vectorize_env (.box olow ohigh) (.box alow ahigh) =
          .error (.assertionError "only discrete action space is supported")) ∧
    (∀ (olow ohigh : Vec) (n : ℕ),
        vectorize_env (.box olow ohigh) (.discrete n) =
          .error (.attributeError "low")) :=
  ⟨fun _ _ _ _ => rfl, fun _ _ _ => rfl⟩

/-- C2: FALSIFIED (code bug).  For every gSDE instance in the Ready state
(latent features assigned, whatever mean_actions and log_std hold),
sample() raises NameError immediately: its call to get_noise evaluates the
unbound bare name log_std.  sample() never returns actions, so the
sample-then-log_prob contract of the claim cannot hold on any input. -/
theorem C2_sample_raises_name_error (s : GSDEState) (lat : Mat)
    (hready : s.latent_sde = some lat) :
    gSDE.sample s = (s, .error (.nameError "log_std")) := by
  unfold gSDE.sample
  rw [hready]
  rfl

/-- Witness for C2 at a concrete Ready instance. -/
theorem C2_witness :
    gSDE.sample stateC2 = (stateC2, .error (.nameError "log_std")) :=
  C2_sample_raises_name_error stateC2 [[1]] rfl

/-- C3: FALSIFIED (code bug).  With use_sde enabled,
Agent.get_action_and_value always raises TypeError while constructing the
distribution: the gSDE call of agent_class.py line 97 passes the keyword
arguments observation_dim, observation, mean_actions and log_std, none of
which is a parameter of gSDE.__init__.  The four-tuple return is never
reached. -/
theorem C3_get_action_and_value_sde_raises (A : AgentModel) (x : Vec)
    (action : Option Vec) (h : A.use_sde = true) :
    Agent.get_action_and_value A x action =
      .error (.typeError "got an unexpected keyword argument") := by
  unfold Agent.get_action_and_value
  rw [h]
  rfl

/-- Witness for C3 at a concrete agent and observation. -/
theorem C3_witness :
    Agent.get_action_and_value agentC3 [0] none =
      .error (.typeError "got an unexpected keyword argument") :=
  C3_get_action_and_value_sde_raises agentC3 [0] none rfl

/-- C5: FALSIFIED (code bug).  No exploration noise is ever drawn:
sample_weights raises NameError (Normal is unbound) after get_std and
before assigning weights_dist or exploration_mat, so it leaves the
instance unchanged and returns no draw; and get_noise, sample, log_prob,
entropy and mode leave the instance unchanged on every input as well
(the first three because they raise before mutating).  In particular the
attribute exploration_matrices is assigned by no operation at all, and no
noise exists to be reused across sample() calls. -/
theorem C5_exploration_noise_never_drawn (s : GSDEState) (t : Tensor) (b : ℕ)
    (d1 : Mat) (dB : List Mat) (lat a : Mat) :
    ((gSDE.sample_weights s t b d1 dB).1 = s ∧
      ∃ e, (gSDE.sample_weights s t b d1 dB).2 = .error e) ∧
    (gSDE.get_noise s lat).1 = s ∧
    (gSDE.sample s).1 = s ∧
    (gSDE.log_prob s a).1 = s ∧
    (gSDE.entropy s).1 = s ∧
    (gSDE.mode s).1 = s := by
  refine ⟨⟨?_, ?_⟩, rfl, ?_, ?_, ?_, ?_⟩
  · unfold gSDE.sample_weights
    cases gSDE.get_std s.cfg t <;> rfl
  · unfold gSDE.sample_weights
    cases gSDE.get_std s.cfg t with
    | error e => exact ⟨e, rfl⟩
    | ok std => exact ⟨.nameError "Normal", rfl⟩
  · unfold gSDE.sample
    cases s.latent_sde <;> rfl
  · unfold gSDE.log_prob
    cases s.distribution <;> rfl
  · unfold gSDE.entropy
    split <;> rfl
  · unfold gSDE.mode
    cases s.distribution with
    | none => rfl
    | some md => by_cases h : s.cfg.squash_output = true <;> simp [h]

/-- C6: CONFIRMED, under the preconditions for get_std to return at all.
Whenever get_std returns (with the configured epsilon nonnegative, as the
default 1e-6 is, and log_std of the documented 1-D reduced shape whenever
full_std is False), every entry of the result is strictly positive, and
with full_std = False the returned matrix has all rows identical.  Note
that with full_std = False the call only returns when latent_sde_dim has
been assigned externally: __init__ leaves it None and nothing in the
repository ever sets it, so the full_std = False path of the repository
as shipped stops at the assert of line 137. -/
theorem C6_get_std_positive_and_identical_rows (s : GSDEConfig) (t out : Tensor)
    (hε : 0 ≤ s.epsilon)
    (hshape : s.full_std = false → ∃ v, t = Tensor.vec v)
    (hok : gSDE.get_std s t = .ok out) :
    (∀ x ∈ out.entries, 0 < x) ∧ (s.full_std = false → out.rowsIdentical) := by
  unfold gSDE.get_std at hok
  cases hfs : s.full_std with
  | true =>
    rw [hfs] at hok
    simp only [if_true] at hok
    cases hok
    refine ⟨?_, ?_⟩
    · intro x hx
      obtain ⟨x0, rfl⟩ := Tensor.entries_map _ _ x hx
      exact get_std_entry_pos _ _ _ hε
    · intro hff
      simp at hff
  | false =>
    obtain ⟨v, rfl⟩ := hshape hfs
    rw [hfs] at hok
    simp only [Bool.false_eq_true, if_false] at hok
    cases hd : s.latent_sde_dim with
    | none => rw [hd] at hok; cases hok
    | some L =>
      rw [hd] at hok
      simp only [Tensor.map] at hok
      cases hok
      refine ⟨?_, ?_⟩
      · intro x hx
        simp only [Tensor.entries, List.mem_flatten] at hx
        obtain ⟨r, hr, hxr⟩ := hx
        rw [List.eq_of_mem_replicate hr] at hxr
        obtain ⟨x0, _, hx0⟩ := List.mem_map.mp hxr
        rw [← hx0]
        exact get_std_entry_pos _ _ _ hε
      · intro _
        intro r1 hr1 r2 hr2
        rw [List.eq_of_mem_replicate hr1, List.eq_of_mem_replicate hr2]

/-- Witness for C6: a concrete reduced-shape call with use_expln. -/
theorem C6_witness :
    (∀ x ∈ (Tensor.mat
        (List.replicate 2 [get_std_entry true (1 / 1000000) 0])).entries, 0 < x) ∧
    (cfgC6.full_std = false →
      (Tensor.mat
        (List.replicate 2 [get_std_entry true (1 / 1000000) 0])).rowsIdentical) :=
  C6_get_std_positive_and_identical_rows cfgC6 (.vec [0])
    (.mat (List.replicate 2 [get_std_entry true (1 / 1000000) 0]))
    (by norm_num [cfgC6]) (fun _ => ⟨[0], rfl⟩) rfl

/-- C7: CONFIRMED.  For every y strictly inside (-1 + eps, 1 - eps), with
eps the (nonnegative) machine epsilon parameter of the inverse, the clamp
is the identity and forward(inverse(y)) recovers y exactly in the real
idealization (the floating-tolerance wording of the claim). -/
theorem C7_tanh_bijector_roundtrip (eps y : ℝ) (heps : 0 ≤ eps)
    (h1 : -1 + eps < y) (h2 : y < 1 - eps) :
    TanhBijector.forward (TanhBijector.inverse eps y) = y := by
  unfold TanhBijector.forward TanhBijector.inverse clampR
  rw [max_eq_left (le_of_lt h1), min_eq_left (le_of_lt h2)]
  exact tanh_tanhBijector_atanh y (by linarith) (by linarith)

/-- Witness for C7 at eps = 1/2 and y = 0. -/
theorem C7_witness :
    TanhBijector.forward (TanhBijector.inverse (1 / 2) 0) = 0 :=
  C7_tanh_bijector_roundtrip (1 / 2) 0 (by norm_num) (by norm_num) (by norm_num)

/-- C8: FALSIFIED (code bug).  get_noise never reaches the batch-length
branch of line 163 at all: on every instance state and every latent batch
(of length 1 or otherwise) its first statement evaluates the unbound name
log_std and raises NameError, leaving the instance unchanged. -/
theorem C8_get_noise_raises_name_error (s : GSDEState) (latent : Mat) :
    gSDE.get_noise s latent = (s, .error (.nameError "log_std")) := rfl

/-- C9: PARTLY FALSIFIED (code bug in the second half).  With a bijector
configured (squash_output = True), entropy() returns the None sentinel on
every call and never a numeric value, exactly as claimed; without a
bijector, however, it does not return the summed Gaussian entropy but
raises NameError, since line 222 evaluates the unbound name
sum_independent_dims. -/
theorem C9_entropy_sentinel_and_name_error (s : GSDEState) :
    gSDE.entropy s =
      (s, if s.cfg.squash_output = true then Except.ok none
          else Except.error (PyErr.nameError "sum_independent_dims")) := by
  by_cases h : s.cfg.squash_output = true
  · simp [gSDE.entropy, h]
  · simp only [gSDE.entropy, h, if_false]
    rfl

/-- C4: FALSIFIED as stated for action dimension above 1 (corrected).
Concrete counterexample with a 2-dimensional action: the previously
recorded action is (1, 0) and the new action (0, 0), so the squared
Euclidean distance between the two most recent recorded action vectors is
1, but the cost that step() computes and reports is
(obs[-1][-1] - obs[-2][-1])^2 = 0: only the LAST components enter. -/
theorem C4_counterexample :
    (HistoryWrapper.step hwC4 [0, 0] [0] 0 false).2.2.2.2 = some 0 ∧
    claimed_continuity_cost 2
        (HistoryWrapper.step hwC4 [0, 0] [0] 0 false).1.history = 1 ∧
    (0 : ℝ) ≠ 1 := by
  refine ⟨?_, ?_, by norm_num⟩
  · simp only [HistoryWrapper.step, hwC4, HistoryWrapper.continuity_cost]
    norm_num
  · simp only [HistoryWrapper.step, hwC4, claimed_continuity_cost]
    norm_num

/-- C4 amended: CONFIRMED.  On every step with use_continuity_cost on, at
least two history rows, and a nonempty action, the continuity cost equals
the squared difference between the LAST COMPONENT of the incoming action
and the last component of the most recent previously recorded row (the
last component of the previous action) -- which coincides with the
claimed full squared Euclidean distance exactly when the action space is
1-dimensional; it is subtracted from the reward with the fixed weight
beta and reported in the info slot. -/
theorem C4_amended (w : HW) (action inner_obs : Vec) (r : ℝ) (dn : Bool)
    (hucc : w.use_continuity_cost = true) (hlen : 2 ≤ w.history.length)
    (hact : action ≠ []) :
    (HistoryWrapper.step w action inner_obs r dn).2.2.2.2 =
        some ((action.getLastD 0 - (w.history.getLastD []).getLastD 0) ^ 2) ∧
    (HistoryWrapper.step w action inner_obs r dn).2.2.1 =
        r - w.beta * ((action.getLastD 0 - (w.history.getLastD []).getLastD 0) ^ 2) := by
  have hcc : HistoryWrapper.continuity_cost (w.history.tail ++ [inner_obs ++ action]) =
      (action.getLastD 0 - (w.history.getLastD []).getLastD 0) ^ 2 := by
    unfold HistoryWrapper.continuity_cost
    rw [List.getLastD_concat, List.dropLast_concat]
    rw [getLastD_append_right inner_obs action hact]
    rw [getLastD_tail_of_two_le w.history hlen]
  unfold HistoryWrapper.step
  simp only [hucc, if_true]
  exact ⟨by rw [hcc], by rw [hcc]⟩

/-- Witness for the amended C4 on a concrete step. -/
theorem C4_amended_witness :
    (HistoryWrapper.step hwC4 [0, 0] [0] 0 false).2.2.2.2 =
        some ((([0, 0] : Vec).getLastD 0 - (hwC4.history.getLastD []).getLastD 0) ^ 2) ∧
    (HistoryWrapper.step hwC4 [0, 0] [0] 0 false).2.2.1 =
        0 - hwC4.beta *
          ((([0, 0] : Vec).getLastD 0 - (hwC4.history.getLastD []).getLastD 0) ^ 2) :=
  C4_amended hwC4 [0, 0] [0] 0 false rfl (by simp [hwC4]) (by simp)

/-- C10: CONFIRMED.  For a wrapper built by HistoryWrapper.init over Box
spaces with steps = n > 1 (the assertion rejects anything smaller), the
history holds exactly n rows of width obs_dim + action_dim after
construction, and both reset() and step() preserve that shape whenever
the inner observation (and for step the action) has the space's
dimension; consequently the flattened observation each returns has length
n * (obs_dim + action_dim). -/
theorem C10_history_invariant (olow ohigh alow ahigh : Vec) (n : ℕ) (ucc : Bool)
    (w : HW) (hn : 1 < n)
    (hini : HistoryWrapper.init (.box olow ohigh) (.box alow ahigh) n ucc = .ok w) :
    HW.inv w n olow.length alow.length ∧
    (∀ (w1 : HW) (iobs : Vec),
        HW.inv w1 n olow.length alow.length → iobs.length = olow.length →
        HW.inv (HistoryWrapper.reset w1 iobs).1 n olow.length alow.length ∧
          (HistoryWrapper.reset w1 iobs).2.length = n * (olow.length + alow.length)) ∧
    (∀ (w1 : HW) (a iobs : Vec) (r : ℝ) (dn : Bool),
        HW.inv w1 n olow.length alow.length → iobs.length = olow.length →
        a.length = alow.length →
        HW.inv (HistoryWrapper.step w1 a iobs r dn).1 n olow.length alow.length ∧
          (HistoryWrapper.step w1 a iobs r dn).2.1.length =
            n * (olow.length + alow.length)) := by
  refine ⟨?_, ?_, ?_⟩
  · unfold HistoryWrapper.init at hini
    rw [if_pos hn] at hini
    simp only [GymSpace.low] at hini
    cases hini
    refine ⟨rfl, by simp, rfl, by simp [HistoryWrapper.make_history], ?_⟩
    intro rrow hr
    unfold HistoryWrapper.make_history at hr
    rw [List.eq_of_mem_replicate hr]
    simp
  · intro w1 iobs hinv hio
    obtain ⟨hsteps, hslow, halow, _, _⟩ := hinv
    have hrows : ∀ r2 ∈ ((HistoryWrapper.make_history w1.steps w1.step_low).tail ++
        [iobs ++ List.replicate w1.act_low.length (0 : ℝ)]),
        r2.length = olow.length + alow.length := by
      intro r2 hr2
      rcases List.mem_append.mp hr2 with hl | hrt
      · have hmem := List.mem_of_mem_tail hl
        unfold HistoryWrapper.make_history at hmem
        rw [List.eq_of_mem_replicate hmem]
        simp [hslow]
      · rw [List.mem_singleton.mp hrt]
        simp [hio, halow]
    have hlen2 : ((HistoryWrapper.make_history w1.steps w1.step_low).tail ++
        [iobs ++ List.replicate w1.act_low.length (0 : ℝ)]).length = n := by
      simp [HistoryWrapper.make_history, hsteps]
      omega
    refine ⟨⟨hsteps, hslow, halow, hlen2, hrows⟩, ?_⟩
    show ((HistoryWrapper.make_history w1.steps w1.step_low).tail ++
        [iobs ++ List.replicate w1.act_low.length (0 : ℝ)]).flatten.length = _
    rw [flatten_length_of_rows hrows, hlen2]
  · intro w1 a iobs r dn hinv hio hal
    obtain ⟨hsteps, hslow, halow, hhlen, hhrows⟩ := hinv
    have hrows : ∀ r2 ∈ (w1.history.tail ++ [iobs ++ a]),
        r2.length = olow.length + alow.length := by
      intro r2 hr2
      rcases List.mem_append.mp hr2 with hl | hrt
      · exact hhrows r2 (List.mem_of_mem_tail hl)
      · rw [List.mem_singleton.mp hrt]
        simp [hio, hal]
    have hlen2 : (w1.history.tail ++ [iobs ++ a]).length = n := by
      simp [hhlen]
      omega
    have hflat : (w1.history.tail ++ [iobs ++ a]).flatten.length =
        n * (olow.length + alow.length) := by
      rw [flatten_length_of_rows hrows, hlen2]
    unfold HistoryWrapper.step
    by_cases hc : w1.use_continuity_cost = true <;>
      simp only [hc, if_true, if_false] <;>
      exact ⟨⟨hsteps, hslow, halow, hlen2, hrows⟩, hflat⟩

/-- Witness for C10 on concrete 1-dimensional Box spaces and steps = 2. -/
theorem C10_witness :
    HW.inv hwC10 2 1 1 ∧
    (∀ (w1 : HW) (iobs : Vec),
        HW.inv w1 2 1 1 → iobs.length = 1 →
        HW.inv (HistoryWrapper.reset w1 iobs).1 2 1 1 ∧
          (HistoryWrapper.reset w1 iobs).2.length = 2 * (1 + 1)) ∧
    (∀ (w1 : HW) (a iobs : Vec) (r : ℝ) (dn : Bool),
        HW.inv w1 2 1 1 → iobs.length = 1 → a.length = 1 →
        HW.inv (HistoryWrapper.step w1 a iobs r dn).1 2 1 1 ∧
          (HistoryWrapper.step w1 a iobs r dn).2.1.length = 2 * (1 + 1)) :=
  C10_history_invariant [0] [1] [0] [1] 2 false hwC10 (by norm_num) rfl

end Fufi
